import Mathlib

/-!
Verification development for the `PostgresBackend` storage backend in
`medallion/backends/postgres_backend.py` (repository NullOranje/cti-taxii-server).

The backend is a thin layer over four PostgreSQL tables (`objects`,
`collections`, `api_root`, `status`) accessed through SQLAlchemy.  We embed the
database state as four lists of rows kept in insertion order, and each backend
method as a pure function on that state.  Fallible Python code (uncaught
`KeyError`/`IndexError`, statements PostgreSQL rejects) is embedded with
`Except`; a `DBAPIError` raised and caught inside a method is modelled by the
corresponding branch of the method itself.

Two helpers the backend imports from `medallion/utils/common.py`
(`generate_status`, `create_bundle`) are not part of the sources available
here; they are modelled from the specification and marked as such.
-/

set_option linter.unusedVariables false

namespace Medallion

/-- Payload submitted for one object of an ingest batch: a JSON document with
the four fields `add_objects` subscripts (`id`, `type`, `created`, `modified`,
each `none` when the key is absent, which makes the Python subscript raise
`KeyError`) plus the remaining key/value content. -/
structure StixObject where
  id : Option String
  type : Option String
  created : Option String
  modified : Option String
  payload : List (String × String)
deriving Repr, DecidableEq

/-- Row of the `objects` table (class `Objects`, postgres_backend.py:210-228).
The primary key is the pair (`id`, `modified`); `collection` is a foreign key
into `collections.id`; `revoked` has server default `False`. -/
structure Objects where
  id : String
  type : String
  date_added : String
  collection : String
  object : StixObject
  revoked : Bool
  created : String
  modified : String
deriving Repr, DecidableEq

/-- Row of the `collections` table (class `Collections`,
postgres_backend.py:231-247).  `media_types` is a comma-delimited string with
server default `application/vnd.oasis.stix+json` (line 246); `id` is the
primary key; `api_root` is a foreign key into `api_root.uri`. -/
structure Collections where
  id : String
  title : String
  description : String
  media_types : String
  api_root : String
deriving Repr, DecidableEq

/-- Row of the `api_root` table (class `APIRoot`, postgres_backend.py:250-266);
`uri` is the primary key. -/
structure APIRoot where
  uri : String
  title : String
  description : String
  versions : String
  max_content_length : Int
deriving Repr, DecidableEq

/-- Row of the `status` table (class `Status`, postgres_backend.py:269-291),
also the shape of the dictionary `generate_status` returns: the three id lists
are stored in delimited-string form. -/
structure StatusRecord where
  id : String
  status : String
  request_timestamp : String
  total_count : Nat
  success_count : Nat
  failure_count : Nat
  pending_count : Nat
  successes : String
  failures : String
  pendings : String
deriving Repr, DecidableEq

/-- Database state: the four tables, each as its rows in insertion order. -/
structure DB where
  objects : List Objects
  collections : List Collections
  api_roots : List APIRoot
  statuses : List StatusRecord
deriving Repr, DecidableEq

/-- Errors of the embedding.  `uniqueViolation` and `foreignKeyViolation` are
the `DBAPIError`s a commit of an `objects` row can raise (both are caught by
`add_objects`); `groupingError` is PostgreSQL error 42803 (ungrouped column in
a grouped SELECT), raised when the statement of `get_objects` is executed;
`keyError`/`indexError` are the uncaught Python exceptions. -/
inductive DbError
  | uniqueViolation
  | foreignKeyViolation
  | groupingError
deriving Repr, DecidableEq

inductive PyError
  | keyError (key : String)
  | indexError
deriving Repr, DecidableEq

/-- Modelled from the spec: `create_bundle` from `medallion/utils/common.py` is
not under src/.  Per the glossary, a Bundle is "a batch of objects ... returned
together as a read result"; we model it as the wrapped list of results. -/
structure Bundle (α : Type) where
  objects : List α
deriving Repr, DecidableEq

/-- Modelled from the spec: wraps the accumulated result list into a Bundle. -/
def create_bundle {α : Type} (objects : List α) : Bundle α :=
  { objects := objects }

/-- Modelled from the spec: `generate_status` from `medallion/utils/common.py`
is not under src/.  Per spec §3 a StatusRecord carries the four counts with the
invariant `total_count == success_count + failure_count + pending_count`, the
id lists in delimited-string form, and a per-call generated id (§6 supplies the
id generator externally; we thread the generated id as the argument `sid`).
`add_objects` passes `pendings` nothing, so it keeps the column default `""`. -/
def generate_status (sid : String) (request_time : String) (status : String)
    (succeeded : Nat) (failed : Nat) (pending : Nat)
    (successes_ids : String) (failures : String) : StatusRecord :=
  { id := sid
    status := status
    request_timestamp := request_time
    total_count := succeeded + failed + pending
    success_count := succeeded
    failure_count := failed
    pending_count := pending
    successes := successes_ids
    failures := failures
    pendings := "" }

/-- Python `str.split(",")` (the separator form used at postgres_backend.py:108
and line 53): splits at every comma, keeping empty pieces, and yields `[""]`
on the empty string — the same behaviour as Lean's `String.splitOn`, written
out structurally so that closed instances evaluate by `rfl`. -/
def splitOnCommaAux : List Char → List Char → List String
  | [], acc => [String.mk acc.reverse]
  | c :: cs, acc =>
    if c = ',' then String.mk acc.reverse :: splitOnCommaAux cs []
    else splitOnCommaAux cs (c :: acc)

def splitOnComma (s : String) : List String :=
  splitOnCommaAux s.toList []

/-- `PostgresBackend._split_or_empty` (postgres_backend.py:103-108): `[]` for
the empty string, otherwise `str.split(",")`.  The Python name starts with an
underscore, dropped here. -/
def split_or_empty (s : String) : List String :=
  if s = "" then [] else splitOnComma s

/-- Python `"".join` (postgres_backend.py:161). -/
def joinEmpty (parts : List String) : String :=
  parts.foldl (fun r s => r ++ s) ""

/-- Python `",".join` (postgres_backend.py:162). -/
def joinComma : List String → String
  | [] => ""
  | p :: ps => ps.foldl (fun r s => r ++ "," ++ s) p

/-- Field extraction of the loop body of `add_objects`
(postgres_backend.py:141-147): the constructor arguments subscript
`new_obj["id"]`, `new_obj["type"]`, `new_obj["created"]`, `new_obj["modified"]`
in that evaluation order; the first missing key raises `KeyError`, which no
handler in `add_objects` catches. -/
def extractFields (o : StixObject) : Except PyError (String × String × String × String) :=
  match o.id with
  | none => .error (.keyError ("id"))
  | some i =>
    match o.type with
    | none => .error (.keyError ("type"))
    | some t =>
      match o.created with
      | none => .error (.keyError ("created"))
      | some c =>
        match o.modified with
        | none => .error (.keyError ("modified"))
        | some m => .ok (i, t, c, m)

/-- Primary-key violation check for the `objects` table: a row with the same
(`id`, `modified`) pair already exists (columns 221 and 228 are the primary
key). -/
def pkConflict (rows : List Objects) (i : String) (m : String) : Bool :=
  rows.any (fun r => r.id = i && r.modified = m)

/-- Foreign-key check for `objects.collection` (postgres_backend.py:224): the
referenced `collections.id` must exist. -/
def fkOk (db : DB) (cid : String) : Bool :=
  db.collections.any (fun c => c.id = cid)

/-- One `session.add` + `session.commit` of an `objects` row
(postgres_backend.py:148-149): PostgreSQL raises an `IntegrityError` (a
`DBAPIError`) on a primary-key or foreign-key violation and the row is not
stored; otherwise the row is appended. -/
def tryInsertObject (db : DB) (row : Objects) : Except DbError DB :=
  if pkConflict db.objects row.id row.modified then .error .uniqueViolation
  else if !fkOk db row.collection then .error .foreignKeyViolation
  else .ok { db with objects := db.objects ++ [row] }

/-- The per-item loop of `add_objects` (postgres_backend.py:139-155).  Each
iteration builds the row from the request payload, commits it, and appends the
object id to `successes`; a `DBAPIError` is caught, `failed` is incremented,
the id is appended to `failures` and the session rolled back (the database is
left unchanged for that item).  `succeeded` and `pending` are never touched by
the loop.  A `KeyError` from a missing payload field is not caught and aborts
the whole loop. -/
def addLoop (id_ : String) (request_time : String) (db : DB) (failed : Nat)
    (successes : List String) (failures : List String) :
    List StixObject → Except PyError (DB × Nat × List String × List String)
  | [] => .ok (db, failed, successes, failures)
  | new_obj :: rest =>
    match extractFields new_obj with
    | .error e => .error e
    | .ok (i, t, c, m) =>
      match tryInsertObject db
          { id := i, type := t, date_added := request_time, collection := id_,
            object := new_obj, revoked := false, created := c, modified := m } with
      | .ok db2 => addLoop id_ request_time db2 failed (successes ++ [i]) failures rest
      | .error _ => addLoop id_ request_time db (failed + 1) successes (failures ++ [i]) rest

/-- `PostgresBackend._put_status` (postgres_backend.py:191-198): add + commit of
the status row; a `DBAPIError` (primary-key conflict on `status.id`) is caught,
logged and rolled back, so the record is simply not stored.  The Python name
starts with an underscore, dropped here. -/
def put_status (db : DB) (s : StatusRecord) : DB :=
  if db.statuses.any (fun r => r.id = s.id) then db
  else { db with statuses := db.statuses ++ [s] }

/-- `PostgresBackend.add_objects` (postgres_backend.py:124-164).  `objs` stands
for `objs["objects"]`; `sid` is the status id produced by the external id
generator (spec §6).  The counters `failed`/`succeeded`/`pending` start at 0
and only `failed` is ever incremented; the success ids are joined with `""`
(line 161) and the failure ids with `","` (line 162); the resulting record is
persisted via `put_status` and returned. -/
def add_objects (db : DB) (api_root : String) (id_ : String)
    (objs : List StixObject) (request_time : String) (sid : String) :
    Except PyError (DB × StatusRecord) :=
  match addLoop id_ request_time db 0 [] [] objs with
  | .error e => .error e
  | .ok (db2, failed, successes, failures) =>
    let status := generate_status sid request_time ("complete") 0 failed 0
      (joinEmpty successes) (joinComma failures)
    .ok (put_status db2 status, status)

/-- Dictionary returned by `get_collection` (postgres_backend.py:44-58):
`to_dict()` of the row with `media_types` split into a list and the two
hardcoded access-control flags. -/
structure CollectionView where
  id : String
  title : String
  description : String
  media_types : List String
  api_root : String
  can_read : Bool
  can_write : Bool
deriving Repr, DecidableEq

/-- `PostgresBackend.get_collection` (postgres_backend.py:44-58): first row of
`collections` with the requested id, or Python `None`.  `to_dict()` always
yields the `media_types` column, so the `setdefault` fallback string
`application/vnd.oasis.stix+json; version=2.0` at lines 52-53 never applies;
the stored value is split on commas.  `can_read`/`can_write` are set to `True`
unconditionally (lines 55-56, "TODO: Real access control"). -/
def get_collection (db : DB) (api_root : String) (collection_id : String) :
    Option CollectionView :=
  (db.collections.find? (fun c => c.id = collection_id)).map (fun row =>
    { id := row.id
      title := row.title
      description := row.description
      media_types := splitOnComma row.media_types
      api_root := row.api_root
      can_read := true
      can_write := true })

/-- `PostgresBackend.get_collections` (postgres_backend.py:34-42): `to_dict()`
of every row of `collections` — the `api_root` argument is ignored by the
query. -/
def get_collections (db : DB) (api_root : String) : List Collections :=
  db.collections

/-- `PostgresBackend.get_api_root_information` (postgres_backend.py:82-88):
first row of `api_root` with the requested uri, or Python `None`. -/
def get_api_root_information (db : DB) (api_root : String) : Option APIRoot :=
  db.api_roots.find? (fun r => r.uri = api_root)

/-- One entry of the manifest dictionary built by `get_object_manifest`
(postgres_backend.py:66-76). -/
structure ManifestEntry where
  id : String
  date_added : String
  versions : List String
  media_types : List String
deriving Repr, DecidableEq

/-- One step of the manifest loop (postgres_backend.py:66-76) on the
insertion-ordered dictionary `maker`: the first row seen for an id creates its
entry with that row's `date_added` and a singleton `versions` list holding the
row's `modified` value; every later row of the same id appends its `modified`
to `versions`. -/
def makerStep (maker : List (String × ManifestEntry)) (rid : String)
    (da : String) (ver : String) : List (String × ManifestEntry) :=
  match maker with
  | [] => [(rid,
      { id := rid, date_added := da, versions := [ver],
        media_types := ["application/vnd.oasis.stix+json; version=2.0"] })]
  | (k, e) :: rest =>
    if k = rid then (k, { e with versions := e.versions ++ [ver] }) :: rest
    else (k, e) :: makerStep rest rid da ver

/-- `PostgresBackend.get_object_manifest` (postgres_backend.py:60-80): queries
`(id, date_added, modified)` of EVERY row of `objects` — neither `api_root`
nor `collection_id` appears in the query — folds the rows into the
insertion-ordered dictionary `maker`, and returns its values. -/
def get_object_manifest (db : DB) (api_root : String) (collection_id : String) :
    List ManifestEntry :=
  (db.objects.foldl (fun m q => makerStep m q.id q.date_added q.modified) []).map
    (fun kv => kv.2)

/-- Dictionary returned by `get_status` (postgres_backend.py:91-101):
`to_dict()` of the status row with the three id lists decoded by
`_split_or_empty`. -/
structure StatusView where
  id : String
  status : String
  request_timestamp : String
  total_count : Nat
  success_count : Nat
  failure_count : Nat
  pending_count : Nat
  successes : List String
  failures : List String
  pendings : List String
deriving Repr, DecidableEq

/-- `PostgresBackend.get_status` (postgres_backend.py:91-101): first row of
`status` with the requested id decoded into a `StatusView`, or Python `None`
when no row matches. -/
def get_status (db : DB) (api_root : String) (status_id : String) :
    Option StatusView :=
  (db.statuses.find? (fun r => r.id = status_id)).map (fun s =>
    { id := s.id
      status := s.status
      request_timestamp := s.request_timestamp
      total_count := s.total_count
      success_count := s.success_count
      failure_count := s.failure_count
      pending_count := s.pending_count
      successes := split_or_empty s.successes
      failures := split_or_empty s.failures
      pendings := split_or_empty s.pendings })

/-- Columns of the `objects` table, for the validity check PostgreSQL applies
to the grouped SELECT of `get_objects`. -/
inductive ObjColumn
  | id
  | type
  | date_added
  | collection
  | object
  | revoked
  | created
  | modified
deriving Repr, DecidableEq

/-- Primary key of the `objects` table (postgres_backend.py:221 and 228). -/
def objectsPrimaryKey : List ObjColumn :=
  [ObjColumn.id, ObjColumn.modified]

/-- PostgreSQL accepts a plain (non-aggregated) column reference in a grouped
SELECT only when the column is listed in GROUP BY, or the GROUP BY list covers
the whole primary key of its table (functional dependency); otherwise the
statement is rejected with error 42803 before any row is read. -/
def plainColAllowed (groupBy : List ObjColumn) (c : ObjColumn) : Bool :=
  groupBy.contains c || objectsPrimaryKey.all (fun k => groupBy.contains k)

def groupedSelectAccepted (plainCols : List ObjColumn) (groupBy : List ObjColumn) : Bool :=
  plainCols.all (plainColAllowed groupBy)

/-- Plain column references of the statement at postgres_backend.py:115-116:
`Objects.id` and `Objects.object` in the select list and `Objects.modified` in
ORDER BY (`func.max(Objects.modified)` in the select list is aggregated and
exempt). -/
def getObjectsPlainCols : List ObjColumn :=
  [ObjColumn.id, ObjColumn.object, ObjColumn.modified]

/-- GROUP BY list of the statement at postgres_backend.py:115-116. -/
def getObjectsGroupBy : List ObjColumn :=
  [ObjColumn.id]

/-- Representative row per id group in table order, used only by the branch a
lenient (non-PostgreSQL) engine would take for the grouped SELECT of
`get_objects`: the first row of each group stands for the group. -/
def groupFirstRows (rows : List Objects) : List Objects :=
  rows.foldl (fun acc r => if acc.any (fun a => a.id = r.id) then acc else acc ++ [r]) []

/-- `PostgresBackend.get_objects` (postgres_backend.py:110-122): the query
selects `Objects.id`, `Objects.object` and `max(Objects.modified)` grouped by
`Objects.id` alone and ordered by the plain column `Objects.modified`.
PostgreSQL rejects this statement (error 42803: `object` and `modified` are
neither grouped nor aggregated, and GROUP BY does not cover the primary key
(`id`, `modified`)), so the method raises a `ProgrammingError` for every
database state; no collection filter exists in the query either ("TODO:
matching").  The accepting branch models a lenient engine picking the first
row of each group and is unreachable for this statement. -/
def get_objects (db : DB) (api_root : String) (collection_id : String) :
    Except DbError (Bundle StixObject) :=
  if groupedSelectAccepted getObjectsPlainCols getObjectsGroupBy then
    .ok (create_bundle ((groupFirstRows db.objects).map (fun r => r.object)))
  else .error .groupingError

/-- Stable insertion of a row into a list kept in descending `date_added`
order: the model of `order_by(desc(Objects.date_added))` at
postgres_backend.py:170 (ties keep table order, which SQL leaves
unspecified). -/
def insertByDateDesc (r : Objects) : List Objects → List Objects
  | [] => [r]
  | x :: xs =>
    if x.date_added < r.date_added then r :: x :: xs
    else x :: insertByDateDesc r xs

def orderByDateAddedDesc (rows : List Objects) : List Objects :=
  rows.foldl (fun acc r => insertByDateDesc r acc) []

/-- `PostgresBackend.get_object` (postgres_backend.py:166-173): all rows of
`objects` with the requested id, ordered by `date_added` descending; the method
subscripts `query[0]` with no emptiness guard, so an unknown id raises an
uncaught `IndexError`; otherwise the first row's `to_dict()` is wrapped in a
bundle. -/
def get_object (db : DB) (api_root : String) (collection_id : String)
    (object_id : String) : Except PyError (Bundle Objects) :=
  match orderByDateAddedDesc (db.objects.filter (fun r => r.id = object_id)) with
  | [] => .error .indexError
  | r :: _ => .ok (create_bundle [r])

/-- Discovery resource of `server_discovery` (postgres_backend.py:175-189). -/
structure DiscoveryView where
  title : String
  api_roots : List String
deriving Repr, DecidableEq

/-- `PostgresBackend.server_discovery` (postgres_backend.py:175-189): the fixed
default title and one path string per `api_root` row. -/
def server_discovery (db : DB) : DiscoveryView :=
  { title := "Default discovery title"
    api_roots := db.api_roots.map (fun r => "/" ++ r.uri ++ "/") }

/-! ## Concrete fixtures -/

/-- A collection row with an explicitly configured media-types string. -/
def collC : Collections :=
  { id := "c", title := "tc", description := "dc",
    media_types := "application/vnd.oasis.stix+json; version=2.0", api_root := "r" }

/-- Database holding just the collection `c`. -/
def db0 : DB :=
  { objects := [], collections := [collC], api_roots := [], statuses := [] }

/-- A well-formed ingest payload with id `x`. -/
def oX1 : StixObject :=
  { id := some ("x"), type := some ("indicator"),
    created := some ("2019-01-01T00:00:00Z"), modified := some ("2019-01-01T00:00:00Z"),
    payload := [] }

/-! ## Helper lemmas -/

theorem joinEmpty_single (s : String) : joinEmpty [s] = s := by
  simp [joinEmpty]

theorem joinComma_single (s : String) : joinComma [s] = s := rfl

theorem put_status_objects (db : DB) (s : StatusRecord) :
    (put_status db s).objects = db.objects := by
  unfold put_status
  split <;> rfl

theorem pkConflict_append (rows : List Objects) (r : Objects) (i m : String)
    (h1 : r.id = i) (h2 : r.modified = m) : pkConflict (rows ++ [r]) i m = true := by
  simp [pkConflict, h1, h2]

/-! ## Claims -/

/-- C1 (counterexample): the claim says re-ingesting the identical
(id, version, payload) pair is classified as a success both times.  On the
code, submitting the batch `[oX1, oX1]` to collection `c` stores exactly one
row, but the second insert hits the (id, modified) primary-key constraint, is
caught as a `DBAPIError`, and lands in the failures list — not a second
success: the decoded failures list is `["x"]`, not `[]`. -/
theorem C1_counterexample :
    (add_objects db0 ("r") ("c") [oX1, oX1] ("t0") ("s0")).map
      (fun p => (p.1.objects.length, split_or_empty p.2.successes,
        split_or_empty p.2.failures))
      = .ok (1, ["x"], ["x"]) := rfl

/-- C1 (amended): for every collection and well-formed object whose
(id, modified) pair is not yet stored, inserting the same pair twice in one
batch stores exactly one row and never aborts; the first insert is classified
a success and the duplicate re-ingest a failure (a caught constraint
violation), not a no-op success. -/
theorem C1_amended (db : DB) (a : String) (id_ : String) (t : String) (sid : String)
    (o : StixObject) (i ty cr mo : String)
    (hf : extractFields o = .ok (i, ty, cr, mo))
    (hpk : pkConflict db.objects i mo = false)
    (hfk : fkOk db id_ = true) :
    ∃ db2 st, add_objects db a id_ [o, o] t sid = .ok (db2, st) ∧
      db2.objects.length = db.objects.length + 1 ∧
      st.success_count = 0 ∧ st.failure_count = 1 ∧
      st.successes = i ∧ st.failures = i := by
  have hrow : pkConflict (db.objects ++
      [{ id := i, type := ty, date_added := t, collection := id_,
         object := o, revoked := false, created := cr, modified := mo }]) i mo = true :=
    pkConflict_append _ _ _ _ rfl rfl
  have key : add_objects db a id_ [o, o] t sid =
      .ok (put_status
        { db with objects := db.objects ++
            [{ id := i, type := ty, date_added := t, collection := id_,
               object := o, revoked := false, created := cr, modified := mo }] }
        (generate_status sid t ("complete") 0 1 0 (joinEmpty [i]) (joinComma [i])),
        generate_status sid t ("complete") 0 1 0 (joinEmpty [i]) (joinComma [i])) := by
    simp only [add_objects, addLoop, hf, tryInsertObject, hpk, hfk, hrow]
    simp [hrow]
  refine ⟨_, _, key, ?_, rfl, rfl, joinEmpty_single i, joinComma_single i⟩
  rw [put_status_objects]
  simp

/-- C1 (witness for the amended theorem). -/
theorem C1_amended_witness :
    ∃ db2 st, add_objects db0 ("r") ("c") [oX1, oX1] ("t0") ("s0") = .ok (db2, st) ∧
      db2.objects.length = db0.objects.length + 1 ∧
      st.success_count = 0 ∧ st.failure_count = 1 ∧
      st.successes = "x" ∧ st.failures = "x" :=
  C1_amended db0 ("r") ("c") ("t0") ("s0") oX1 ("x") ("indicator")
    ("2019-01-01T00:00:00Z") ("2019-01-01T00:00:00Z") rfl rfl rfl

/-- C2 (code evaluation at the failing input): a batch of one valid object,
successfully stored.  The claim says `success_count = len(successes) = 1` and
`total_count = 1` (the batch size); the code leaves `succeeded` at 0 forever
(postgres_backend.py:133 is never incremented), so the record carries
`total_count = 0`, `success_count = 0` while the decoded successes list holds
the one id. -/
theorem C2_code_evaluation :
    (add_objects db0 ("r") ("c") [oX1] ("t0") ("s0")).map
      (fun p => (p.2.total_count, p.2.success_count, p.2.failure_count,
        p.2.pending_count, split_or_empty p.2.successes))
      = .ok (0, 0, 0, 0, ["x"]) ∧ [oX1].length = 1 :=
  ⟨rfl, rfl⟩

/-- An ingest payload whose `created` key is missing: the third subscript of
the `Objects` constructor call raises `KeyError` (postgres_backend.py:146). -/
def oBad : StixObject :=
  { id := some ("z"), type := some ("indicator"), created := none,
    modified := some ("2019-01-03T00:00:00Z"), payload := [] }

/-- C3 (counterexample): the claim says a malformed item (missing required
field) yields a per-item failure entry and the call never raises for the whole
batch.  On the code, only `DBAPIError` is caught; the batch `[oX1, oBad]`
raises an uncaught `KeyError` on the malformed second item, aborting the whole
call with no StatusRecord. -/
theorem C3_counterexample :
    add_objects db0 ("r") ("c") [oX1, oBad] ("t0") ("s0")
      = .error (.keyError ("created")) := rfl

/-- Totality of the ingest loop on batches whose items all carry the four
subscripted fields: the loop returns, every item lands in exactly one of the
two id lists, and the `failed` counter moves in step with the failures list. -/
theorem addLoop_total (id_ : String) (t : String) (objs : List StixObject) :
    ∀ (db : DB) (failed : Nat) (succ : List String) (fl : List String),
      (∀ o ∈ objs, (extractFields o).isOk = true) →
      ∃ db2 failed2 succ2 fl2,
        addLoop id_ t db failed succ fl objs = .ok (db2, failed2, succ2, fl2) ∧
        succ2.length + fl2.length = succ.length + fl.length + objs.length ∧
        failed2 + fl.length = failed + fl2.length := by
  induction objs with
  | nil =>
    intro db failed succ fl h
    exact ⟨db, failed, succ, fl, rfl, by simp, rfl⟩
  | cons o rest ih =>
    intro db failed succ fl h
    have ho : (extractFields o).isOk = true := h o (List.mem_cons_self o rest)
    have hrest : ∀ o2 ∈ rest, (extractFields o2).isOk = true :=
      fun o2 hm => h o2 (List.mem_cons_of_mem _ hm)
    obtain ⟨tup, htup⟩ : ∃ tup, extractFields o = .ok tup := by
      cases hx : extractFields o with
      | error e => rw [hx] at ho; simp [Except.isOk, Except.toBool] at ho
      | ok tup => exact ⟨tup, rfl⟩
    obtain ⟨i, ty, cr, mo⟩ := tup
    cases hins : tryInsertObject db
        { id := i, type := ty, date_added := t, collection := id_,
          object := o, revoked := false, created := cr, modified := mo } with
    | ok db2 =>
      obtain ⟨db3, f3, s3, l3, heq, hlen, hfail⟩ := ih db2 failed (succ ++ [i]) fl hrest
      refine ⟨db3, f3, s3, l3, ?_, ?_, ?_⟩
      · simp only [addLoop, htup, hins]
        exact heq
      · simp at hlen ⊢
        omega
      · exact hfail
    | error e =>
      obtain ⟨db3, f3, s3, l3, heq, hlen, hfail⟩ := ih db (failed + 1) succ (fl ++ [i]) hrest
      refine ⟨db3, f3, s3, l3, ?_, ?_, ?_⟩
      · simp only [addLoop, htup, hins]
        exact heq
      · simp at hlen ⊢
        omega
      · simp at hfail ⊢
        omega

/-- C3 (amended): for every batch whose items all carry the required fields,
each item that fails by a storage fault yields a failure entry for that item
only, processing continues, the call never raises, and a complete StatusRecord
is always returned, every item classified into exactly one of the two id
lists; a malformed item, by contrast, raises an uncaught `KeyError` that
aborts the whole batch (see the counterexample). -/
theorem C3_amended (db : DB) (a : String) (id_ : String) (t : String) (sid : String)
    (objs : List StixObject)
    (h : ∀ o ∈ objs, (extractFields o).isOk = true) :
    ∃ db2 succ fl,
      add_objects db a id_ objs t sid =
        .ok (db2, generate_status sid t ("complete") 0 fl.length 0
          (joinEmpty succ) (joinComma fl)) ∧
      succ.length + fl.length = objs.length := by
  obtain ⟨db2, f2, s2, l2, heq, hlen, hfail⟩ := addLoop_total id_ t objs db 0 [] [] h
  have hf2 : f2 = l2.length := by simpa using hfail
  refine ⟨put_status db2 (generate_status sid t ("complete") 0 l2.length 0
    (joinEmpty s2) (joinComma l2)), s2, l2, ?_, by simpa using hlen⟩
  simp only [add_objects, heq, hf2]

/-- C3 (witness for the amended theorem). -/
theorem C3_amended_witness :
    ∃ db2 succ fl,
      add_objects db0 ("r") ("c") [oX1] ("t0") ("s0") =
        .ok (db2, generate_status ("s0") ("t0") ("complete") 0 fl.length 0
          (joinEmpty succ) (joinComma fl)) ∧
      succ.length + fl.length = [oX1].length :=
  C3_amended db0 ("r") ("c") ("t0") ("s0") [oX1] (by decide)

/-- A well-formed ingest payload with id `a`. -/
def oA : StixObject :=
  { id := some ("a"), type := some ("indicator"),
    created := some ("2019-01-01T00:00:00Z"), modified := some ("2019-01-01T00:00:00Z"),
    payload := [] }

/-- A well-formed ingest payload with id `b`. -/
def oB : StixObject :=
  { id := some ("b"), type := some ("indicator"),
    created := some ("2019-01-02T00:00:00Z"), modified := some ("2019-01-02T00:00:00Z"),
    payload := [] }

/-- C4 (code evaluation at the failing input): both items of the comma-free
batch `[oA, oB]` are stored successfully, in order.  The claim says the
StatusRecord's successes list is exactly `["a", "b"]`; the code joins the
success ids with `""` (postgres_backend.py:161), so the record's field decodes
to the single string `["ab"]` — the per-item ids are unrecoverable the moment
there are two successes. -/
theorem C4_code_evaluation :
    (add_objects db0 ("r") ("c") [oA, oB] ("t0") ("s0")).map
      (fun p => (split_or_empty p.2.successes, split_or_empty p.2.failures))
      = .ok (["ab"], []) ∧ (["ab"] : List String) ≠ ["a", "b"] :=
  ⟨rfl, by decide⟩

/-- Three stored versions of the object `x`, with increasing `modified`
timestamps and differing payloads. -/
def rowXv1 : Objects :=
  { id := "x", type := "indicator", date_added := "2019-02-01T00:00:00Z",
    collection := "c", object := oX1, revoked := false,
    created := "2019-01-01T00:00:00Z", modified := "2019-01-01T00:00:00Z" }

def rowXv2 : Objects :=
  { rowXv1 with
    date_added := "2019-02-02T00:00:00Z",
    object := { oX1 with payload := [("name", "v2")] },
    modified := "2019-01-02T00:00:00Z" }

def rowXv3 : Objects :=
  { rowXv1 with
    date_added := "2019-02-03T00:00:00Z",
    object := { oX1 with payload := [("name", "v3")] },
    modified := "2019-01-03T00:00:00Z" }

/-- Database holding collection `c` with three versions of object `x`. -/
def dbX : DB :=
  { objects := [rowXv1, rowXv2, rowXv3], collections := [collC],
    api_roots := [], statuses := [] }

/-- C5 (code evaluation at the failing input): the claim says the listing read
returns, for object `x` with three versions, exactly the payload of the
max-`modified` version.  The statement of `get_objects` selects the ungrouped
columns `object` (select list) and `modified` (ORDER BY) under
`GROUP BY objects.id`, which does not cover the primary key (`id`,
`modified`); PostgreSQL rejects it with error 42803, so the read raises a
database error and returns no payload at all. -/
theorem C5_code_evaluation :
    groupedSelectAccepted getObjectsPlainCols getObjectsGroupBy = false ∧
    get_objects dbX ("r") ("c") = .error .groupingError :=
  ⟨rfl, rfl⟩

/-- Collections `A` and `B`, each holding one object (`x` in `A`, `y` in
`B`). -/
def collA : Collections :=
  { id := "A", title := "ta", description := "da",
    media_types := "application/vnd.oasis.stix+json", api_root := "r" }

def collB : Collections :=
  { id := "B", title := "tb", description := "db",
    media_types := "application/vnd.oasis.stix+json", api_root := "r" }

def rowXA : Objects :=
  { id := "x", type := "indicator", date_added := "2019-02-01T00:00:00Z",
    collection := "A", object := oX1, revoked := false,
    created := "2019-01-01T00:00:00Z", modified := "2019-01-01T00:00:00Z" }

def rowYB : Objects :=
  { id := "y", type := "indicator", date_added := "2019-02-02T00:00:00Z",
    collection := "B", object := oB, revoked := false,
    created := "2019-01-02T00:00:00Z", modified := "2019-01-02T00:00:00Z" }

def dbAB : DB :=
  { objects := [rowXA, rowYB], collections := [collA, collB],
    api_roots := [], statuses := [] }

/-- C6 (code evaluation at the failing input): the claim says the manifest of
collection `A` has exactly one entry per distinct id IN THAT COLLECTION.  The
query of `get_object_manifest` carries no collection filter
(postgres_backend.py:65), so the manifest of `A` also lists `y`, which lives
only in collection `B`. -/
theorem C6_code_evaluation :
    (get_object_manifest dbAB ("r") ("A")).map (fun e => e.id) = ["x", "y"] ∧
    rowYB.collection ≠ ("A") :=
  ⟨rfl, by decide⟩

/-- C7 (counterexample): the claim says every exposed read, given an unknown
id, returns an explicit not-found result and never an exception.  On the code,
`get_object` subscripts `query[0]` with no guard (postgres_backend.py:172), so
looking up an object id with no stored row raises an uncaught `IndexError`. -/
theorem C7_counterexample :
    get_object db0 ("r") ("c") ("nope") = .error .indexError := rfl

/-- C7 (amended): the collection-detail and status reads return an explicit
not-found (Python `None`) for unknown ids, with no exception and no
empty-but-present fields; the single-object lookup, by contrast, raises an
uncaught `IndexError` when no row exists for the id. -/
theorem C7_amended (db : DB) (a : String) (cid : String) (c2 : String)
    (sid : String) (oid : String)
    (hc : db.collections.find? (fun r => r.id = cid) = none)
    (hs : db.statuses.find? (fun r => r.id = sid) = none)
    (ho : db.objects.filter (fun r => r.id = oid) = []) :
    get_collection db a cid = none ∧ get_status db a sid = none ∧
      get_object db a c2 oid = .error .indexError := by
  refine ⟨?_, ?_, ?_⟩
  · simp [get_collection, hc]
  · simp [get_status, hs]
  · simp [get_object, ho, orderByDateAddedDesc]

/-- C7 (witness for the amended theorem). -/
theorem C7_amended_witness :
    get_collection db0 ("r") ("nope2") = none ∧
      get_status db0 ("r") ("nope3") = none ∧
      get_object db0 ("r") ("c") ("nope4") = .error .indexError :=
  C7_amended db0 ("r") ("nope2") ("c") ("nope3") ("nope4") rfl rfl rfl

/-- C8 (code evaluation at the failing input): ingesting the comma-free batch
`[oA, oB]` (both successes) and reading the status back through `get_status`
decodes the successes field to `["ab"]`, not the original ordered list
`["a", "b"]`: the boundary encoding joins successes with `""`
(postgres_backend.py:161) while the decoder splits on `","`
(postgres_backend.py:108), so the round trip is lossy even without embedded
commas. -/
theorem C8_code_evaluation :
    (add_objects db0 ("r") ("c") [oA, oB] ("t0") ("s0")).map
      (fun p => (get_status p.1 ("r") ("s0")).map
        (fun v => (v.successes, v.failures)))
      = .ok (some (["ab"], [])) ∧ (["ab"] : List String) ≠ ["a", "b"] :=
  ⟨rfl, by decide⟩

/-- A collection row created without an explicit media-types value: the column
takes the table's server default `application/vnd.oasis.stix+json`
(postgres_backend.py:246), which lacks the `; version=2.0` parameter. -/
def collD : Collections :=
  { id := "d", title := "td", description := "dd",
    media_types := "application/vnd.oasis.stix+json", api_root := "r" }

def db9 : DB :=
  { objects := [], collections := [collD], api_roots := [], statuses := [] }

/-- C9 (code evaluation at the failing input): the claim says a collection
without explicitly configured media types reads back as exactly
`["application/vnd.oasis.stix+json; version=2.0"]`.  The `setdefault` fallback
carrying that string (postgres_backend.py:52-53) never fires because
`to_dict()` always supplies the `media_types` key, so the table's server
default wins and the read returns `["application/vnd.oasis.stix+json"]` — a
list, but not the claimed one. -/
theorem C9_code_evaluation :
    (get_collection db9 ("r") ("d")).map (fun v => v.media_types)
      = some [("application/vnd.oasis.stix+json")] ∧
    ([("application/vnd.oasis.stix+json")] : List String)
      ≠ [("application/vnd.oasis.stix+json; version=2.0")] :=
  ⟨rfl, by decide⟩

/-- C10: every collection the detail read finds is reported with
`can_read = True` and `can_write = True`, for any caller and API root: the
flags are hardcoded at postgres_backend.py:55-56 ("TODO: Real access
control"). -/
theorem C10_access_flags (db : DB) (a : String) (cid : String)
    (d : CollectionView) (h : get_collection db a cid = some d) :
    d.can_read = true ∧ d.can_write = true := by
  cases hf : db.collections.find? (fun c => c.id = cid) with
  | none =>
    simp only [get_collection, hf, Option.map_none'] at h
    exact Option.noConfusion h
  | some row =>
    simp only [get_collection, hf, Option.map_some'] at h
    cases h
    exact ⟨rfl, rfl⟩

/-- The view `get_collection` produces for the fixture collection `c`. -/
def viewC : CollectionView :=
  { id := "c", title := "tc", description := "dc",
    media_types := [("application/vnd.oasis.stix+json; version=2.0")],
    api_root := "r", can_read := true, can_write := true }

/-- C10 (witness). -/
theorem C10_access_flags_witness :
    viewC.can_read = true ∧ viewC.can_write = true :=
  C10_access_flags db0 ("r") ("c") viewC rfl

end Medallion
